import Mathlib

/-!
Verification of the execution-and-output pipeline of a browser-based R
notebook (WebR + ggplot2 demo).  The TypeScript sources drive an embedded
R interpreter through asynchronous calls.  The embedding models the
interpreter's global workspace as an association list of bindings and
threads it explicitly through every operation.  Every interpreter round
trip may fail; the outcome of each such call is supplied by an explicit oracle
record, so theorems quantify over all interpreter behaviours.
-/

/-- The JS view of an R value as produced by webR's `toJs` bridge:
a character vector, a logical vector, a list of nested values, or an
opaque non-convertible object. -/
inductive RValue where
  | strs : List String → RValue
  | bools : List Bool → RValue
  | listv : List RValue → RValue
  | obj : Nat → RValue

/-- The `data` field of one captured WebR output item: either already a
plain string, an opaque R object handle, or absent. -/
inductive RPayload where
  | str : String → RPayload
  | handle : Nat → RPayload
  | absent : RPayload

/-- The interpreter's global workspace: names bound to values. -/
abbrev Env := List (String × RValue)

/-- `webR.objs.globalEnv.bind(name, v)`: (re)binds `name`. -/
def envBind (env : Env) (name : String) (v : RValue) : Env :=
  (name, v) :: env.filter (fun p => p.1 != name)

/-- `rm(name)` in the global environment. -/
def envRemove (env : Env) (name : String) : Env :=
  env.filter (fun p => p.1 != name)

/-- `exists(name)` in the global environment. -/
def envHas (env : Env) (name : String) : Bool :=
  env.any (fun p => p.1 == name)

/-- `get(name)` in the global environment, `none` when unbound. -/
def envLookup (env : Env) (name : String) : Option RValue :=
  (env.find? (fun p => p.1 == name)).map (·.2)

/-- `cleanErrorMessage` from `utils/errors.ts`: strip the WebR-internal
`"M: "` channel marker when present at the start of the message
(`message.startsWith('M: ')` / `message.substring(3)`, written here on
the character list so that it evaluates by kernel reduction). -/
def cleanErrorMessage (message : String) : String :=
  match message.data with
  | 'M' :: ':' :: ' ' :: rest => String.mk rest
  | _ => message

/-- JS whitespace test for the characters relevant here (space, tab,
line feed, carriage return). -/
def isWsChar (c : Char) : Bool :=
  c = ' ' || c = '\t' || c = '\n' || c = '\r'

/-- JS `s.trim()`: remove leading and trailing whitespace. -/
def jsTrim (s : String) : String :=
  String.mk (((s.data.dropWhile isWsChar).reverse.dropWhile isWsChar).reverse)

/-- The fixed separator literal used by the error-capturing wrapper
(the R string `"\n\nIn addition: Warning message:\n"`). -/
def errorSeparator : String := "\n\nIn addition: Warning message:\n"

/-- R `paste(a, b, c)` with the default separator: a single space is
inserted between consecutive arguments. -/
def rPaste3 (a b c : String) : String := a ++ " " ++ b ++ " " ++ c

/-- The combined message built by the error branch of the generated
wrapper code (`createErrorCapturingWrapper`):
`error_msg <- paste(error_msg, "\n\nIn addition: Warning message:\n", warning_text)`
with `warning_text <- paste(collected_warnings, collapse = "\n")`,
applied only when the accumulator is non-empty. -/
def buildEnhancedError (errMsg : String) (collectedWarnings : List String) : String :=
  if collectedWarnings.length > 0 then
    rPaste3 errMsg errorSeparator (String.intercalate "\n" collectedWarnings)
  else errMsg

/-- Reserved global holding the warnings accumulated by the wrapper. -/
def warningsName : String := ".webr_collected_warnings"

/-- Reserved global holding the wrapper's enriched error message. -/
def completeErrorName : String := ".webr_complete_error"

/-- One evaluation of the user's code inside the wrapper: the warning
messages it raises (in order, up to the end or up to the error) and its
final outcome (normal completion or an error message). -/
structure UserEval where
  warnings : List String
  outcome : Except String Unit

/-- Semantics of evaluating the code generated by
`createErrorCapturingWrapper`: first `assign(".webr_collected_warnings",
character(0))`, then the user code runs with the warning handler
appending each warning's message to the accumulator; if the user code
errors, the error handler stores the combined message under
`.webr_complete_error` and re-raises the original error. -/
def runWrappedCode (u : UserEval) (env : Env) : Except String Unit × Env :=
  let env0 := envBind env warningsName (RValue.strs [])
  let env1 := envBind env0 warningsName (RValue.strs u.warnings)
  match u.outcome with
  | Except.ok _ => (Except.ok (), env1)
  | Except.error e =>
      let enhanced := buildEnhancedError e u.warnings
      (Except.error e, envBind env1 completeErrorName (RValue.strs [enhanced]))

/-- `extractEnhancedErrorMessage` from `useWebRSerializaton.ts`, as a
function of the JS view of the retrieved `.webr_complete_error` value
(`none` when the retrieval `evalR`/`toJs` threw) and the fallback text:
use the stored message only when it is a non-empty character vector whose
joined text is non-blank and strictly longer than the fallback. -/
def extractEnhancedErrorMessage (completeErrorView : Option RValue)
    (fallbackMessage : String) : String :=
  match completeErrorView with
  | some (RValue.strs vs) =>
      if vs.length > 0 then
        let completeMessage := String.intercalate "\n" vs
        if jsTrim completeMessage != "" && completeMessage.length > fallbackMessage.length then
          completeMessage
        else fallbackMessage
      else fallbackMessage
  | _ => fallbackMessage

/-- The error text computed by the catch block of
`createExecuteCodeFunction`: take `String(error)`, strip a leading
`"M: "` (the catch block inlines exactly the logic of
`cleanErrorMessage`), then prefer the stored enhanced message via
`extractEnhancedErrorMessage`. -/
def composableCatchMessage (rawCaught : String) (completeErrorView : Option RValue) : String :=
  let errorMessage := cleanErrorMessage rawCaught
  extractEnhancedErrorMessage completeErrorView errorMessage

/-- C1 counterexample: with error `"E1"` and one collected warning
`"W1"`, the combined message built by the wrapper is
`"E1 \n\nIn addition: Warning message:\n W1"` — R's `paste` inserts a
space around the separator — and not the claimed three-part
concatenation with no other characters. -/
theorem c1_counterexample :
    buildEnhancedError "E1" ["W1"] = "E1 " ++ errorSeparator ++ " W1" ∧
    buildEnhancedError "E1" ["W1"] ≠ "E1" ++ errorSeparator ++ "W1" := by
  constructor
  · rfl
  · decide

/-- C1 (amended): whenever at least one warning was accumulated, the
combined message is the error's message, a single space, the fixed
separator, a single space, and the newline-joined warnings — the two
spaces being inserted by R's `paste` default separator. -/
theorem c1_wrapper_message_shape (errMsg w : String) (rest : List String) :
    buildEnhancedError errMsg (w :: rest) =
      errMsg ++ " " ++ errorSeparator ++ " " ++ String.intercalate "\n" (w :: rest) := by
  simp [buildEnhancedError, rPaste3, String.append_assoc]

/-- C7: in the Failed state the raw capture error first has the
two-character `"M: "` marker (plus space) stripped when present; the
enriched stored message then replaces that fallback exactly when it was
retrieved as a non-empty character vector whose joined text has
non-empty trim and strictly greater length than the fallback. -/
theorem c7_failed_state_selection (raw : String) (view : Option RValue) :
    (∀ t : String, cleanErrorMessage ("M: " ++ t) = t) ∧
    composableCatchMessage raw view =
      (let fallback := cleanErrorMessage raw
       match view with
       | some (RValue.strs vs) =>
           let m := String.intercalate "\n" vs
           if vs ≠ [] ∧ jsTrim m ≠ "" ∧ m.length > fallback.length then m else fallback
       | _ => fallback) := by
  constructor
  · intro t
    rfl
  · cases view with
    | none => rfl
    | some v =>
      cases v with
      | strs vs =>
          simp only [composableCatchMessage, extractEnhancedErrorMessage]
          rcases vs with _ | ⟨a, l⟩
          · simp
          · simp only [List.length_cons, Nat.succ_pos, if_pos, ne_eq, reduceCtorEq,
              not_false_iff, true_and, Bool.and_eq_true, bne_iff_ne, decide_eq_true_eq]
      | bools l => rfl
      | listv l => rfl
      | obj n => rfl

/-- C10: the generated wrapper resets the warning accumulator to the
empty character vector before evaluating the user code, so the stored
enriched error of an erroring run is built from exactly that run's
warnings, for every prior state of the workspace; moreover the
accumulator after any wrapped run holds exactly that run's warnings. -/
theorem c10_wrapper_resets_accumulator (env : Env) (ws : List String) (e : String) :
    (envLookup (runWrappedCode ⟨ws, Except.error e⟩ env).2 completeErrorName =
       some (RValue.strs [buildEnhancedError e ws])) ∧
    (∀ u : UserEval, envLookup (runWrappedCode u env).2 warningsName =
       some (RValue.strs u.warnings)) := by
  constructor
  · rfl
  · intro u
    cases h : u.outcome <;>
      simp [runWrappedCode, h, envLookup, envBind, List.find?, warningsName, completeErrorName]

/-- JS `x || dflt` on an optional string result: `null` and the empty
string are both falsy and select the default. -/
def jsOrElse (s? : Option String) (dflt : String) : String :=
  match s? with
  | some s => if s = "" then dflt else s
  | none => dflt

/-- `toCharacterVector` from `utils/r-converters.ts`, as a function of
the `toJs` view of its argument (`none` when `toJs` threw, which the
source catches and turns into `null`): join the values of a character
vector with a line feed, anything else gives `null`. -/
def toCharacterVector (toJsView : Option RValue) : Option String :=
  match toJsView with
  | some (RValue.strs vs) => some (String.intercalate "\n" vs)
  | _ => none

/-- `Serializer.cleanupTempVar`: `evalR('if (exists(name)) rm(name)')`
with any failure swallowed; `ok` records whether that eval succeeded. -/
def cleanupTempVar (ok : Bool) (name : String) (env : Env) : Env :=
  if ok then envRemove env name else env

/-- The temporary name used by the `Serializer` class. -/
def serializerTempName : String := ".__serializer_temp__"

/-- Interpreter outcomes for one `Serializer.serialize` call:
whether the `bind` throws (with which message), the outcome of the
`capture.output(print(...))` eval together with the `toJs` view of its
result (`none` when `toJs` threw), and whether the cleanup eval
succeeds. -/
structure SerOracle where
  bindThrows : Option String
  printEval : Except String (Option RValue)
  cleanupOk : Bool

/-- `Serializer.serialize` from `webr/runtime/serializer.ts`: bind the
handle to `.__serializer_temp__`, capture its printed representation,
join the lines (empty output gives the placeholder), always run the
cleanup in a `finally`; the whole body sits inside `withErrorHandling`,
which catches any failure and re-throws it as a `WebRError` with message
`"Serialization failed: " ++ cleanErrorMessage e`. -/
def serializerSerialize (o : SerOracle) (handle : RValue) (env : Env) :
    Except String String × Env :=
  match o.bindThrows with
  | some e =>
      (Except.error ("Serialization failed: " ++ cleanErrorMessage e),
       cleanupTempVar o.cleanupOk serializerTempName env)
  | none =>
      let env1 := envBind env serializerTempName handle
      match o.printEval with
      | Except.error e =>
          (Except.error ("Serialization failed: " ++ cleanErrorMessage e),
           cleanupTempVar o.cleanupOk serializerTempName env1)
      | Except.ok view =>
          (Except.ok (jsOrElse (toCharacterVector view) "[Object could not be serialized]"),
           cleanupTempVar o.cleanupOk serializerTempName env1)

/-- The temporary name used by `createSerializeFunction`. -/
def csfTempName : String := ".__temp_obj__"

/-- Interpreter outcomes for one call of the composable serialize
function: readiness flag, whether the `bind` throws, whether the first
(condition-aware) eval and the fallback `capture.output` eval throw, the
`toJs` view of the captured output (`Except.error` when `toJs` threw),
and whether the `rm(.__temp_obj__)` eval throws. -/
structure CsfOracle where
  ready : Bool
  bindThrows : Option String
  eval1Throws : Option String
  eval2Throws : Option String
  toJs : Except String RValue
  rmThrows : Option String

/-- `createSerializeFunction` from `useWebRSerializaton.ts`: strings
pass through; otherwise bind `.__temp_obj__`, try the condition-aware
eval and fall back to a plain `capture.output` eval, take the `toJs`
view, run `rm(.__temp_obj__)`, and join the values with the
two-character literal `"\n"` (the source calls `join('\\n')`, a
backslash followed by `n`, not a line feed).  Any throw lands in the
outer catch, which returns `"[Serialization error: ...]"` — note that on
those paths the `rm` never runs, so `.__temp_obj__` stays bound.
Non-character `toJs` views are modelled as failing the character-object
type guard. -/
def csfSerialize (o : CsfOracle) (proxy : RPayload) (env : Env) : String × Env :=
  if !o.ready then ("[Cannot serialize: WebR not ready]", env)
  else
    match proxy with
    | RPayload.str s => (s, env)
    | RPayload.absent => ("[Serialization error: not an object]", env)
    | RPayload.handle id =>
      match o.bindThrows with
      | some e => ("[Serialization error: " ++ e ++ "]", env)
      | none =>
        let env1 := envBind env csfTempName (RValue.obj id)
        let evalFailed : Option String :=
          match o.eval1Throws with
          | none => none
          | some _ => o.eval2Throws
        match evalFailed with
        | some e => ("[Serialization error: " ++ e ++ "]", env1)
        | none =>
          match o.toJs with
          | Except.error e => ("[Serialization error: " ++ e ++ "]", env1)
          | Except.ok view =>
            match o.rmThrows with
            | some e => ("[Serialization error: " ++ e ++ "]", env1)
            | none =>
              let env2 := envRemove env1 csfTempName
              match view with
              | RValue.strs vs =>
                  if vs.length > 0 then (String.intercalate "\\n" vs, env2)
                  else ("[Object could not be serialized]", env2)
              | _ => ("[Object could not be serialized]", env2)

theorem envHas_envRemove_self (env : Env) (n : String) :
    envHas (envRemove env n) n = false := by
  induction env with
  | nil => rfl
  | cons p rest ih =>
    by_cases h : p.1 = n
    · simp [envRemove, envHas, List.filter_cons, h, ih]
    · simp [envRemove, envHas, List.filter_cons, h, ih]

theorem envHas_envRemove_ne (env : Env) (a b : String) (hne : a ≠ b) :
    envHas (envRemove env a) b = envHas env b := by
  induction env with
  | nil => rfl
  | cons p rest ih =>
    by_cases h : p.1 = a
    · have h1 : (p.1 != a) = false := by simp [h]
      have h2 : (p.1 == b) = false := by simp [h, hne]
      simp only [envRemove, envHas, List.filter_cons, h1, Bool.false_eq_true, if_false,
        List.any_cons, h2, Bool.false_or]
      exact ih
    · have h1 : (p.1 != a) = true := by simp [h]
      simp only [envRemove, envHas, List.filter_cons, h1, if_true, List.any_cons]
      have ih' : (List.filter (fun p => p.1 != a) rest).any (fun p => p.1 == b)
          = rest.any (fun p => p.1 == b) := ih
      rw [ih']

theorem envHas_envBind_ne (env : Env) (a b : String) (v : RValue) (hne : a ≠ b) :
    envHas (envBind env a v) b = envHas env b := by
  have h2 : (a == b) = false := by simp [hne]
  have h3 : envHas (envRemove env a) b = envHas env b := envHas_envRemove_ne env a b hne
  simp only [envBind, envHas, List.any_cons, h2, Bool.false_or]
  exact h3

/-- C2 counterexample: a concrete call of the composable serialize
function whose two print-capture evals both throw returns the
placeholder text but leaves `.__temp_obj__` bound in the workspace. -/
theorem c2_counterexample :
    envHas (csfSerialize ⟨true, none, some "err1", some "err2",
        Except.ok (RValue.strs []), none⟩ (RPayload.handle 0) []).2 ".__temp_obj__" = true := by
  decide

/-- C2 (amended): the no-leak invariant holds for `Serializer.serialize`
— its cleanup runs in a `finally`, so whenever the cleanup eval itself
succeeds the workspace ends without `.__serializer_temp__`, on the
success path and on every failure path; `createSerializeFunction`
and `extractConditionMessage` instead leave their temporary bound when
an interpreter call between `bind` and `rm` throws. -/
theorem c2_serializer_no_leak (bt : Option String)
    (pe : Except String (Option RValue)) (h : RValue) (env : Env) :
    envHas (serializerSerialize ⟨bt, pe, true⟩ h env).2 serializerTempName = false := by
  cases bt with
  | some e => simpa [serializerSerialize, cleanupTempVar] using envHas_envRemove_self env _
  | none =>
    cases pe with
    | error e =>
        simpa [serializerSerialize, cleanupTempVar] using
          envHas_envRemove_self (envBind env serializerTempName h) _
    | ok view =>
        simpa [serializerSerialize, cleanupTempVar] using
          envHas_envRemove_self (envBind env serializerTempName h) _

/-- C4 counterexample: when the print-capture eval throws `"boom"`,
`Serializer.serialize` does not return a placeholder — it propagates a
thrown `WebRError` whose message is `"Serialization failed: boom"`. -/
theorem c4_counterexample :
    (serializerSerialize ⟨none, Except.error "boom", true⟩ (RValue.obj 0) []).1
      = Except.error "Serialization failed: boom" := by
  have h1 : cleanErrorMessage "boom" = "boom" := by decide
  show Except.error ("Serialization failed: " ++ cleanErrorMessage "boom")
    = Except.error "Serialization failed: boom"
  rw [h1]
  exact congrArg Except.error (by decide)

/-- C4 (amended): the composable `createSerializeFunction` never throws
— on print-capture failure it returns the placeholder
`"[Serialization error: ...]"` — whereas `Serializer.serialize` wraps
any bind/eval failure in a thrown `WebRError` with message
`"Serialization failed: ..."`, leaving it to its callers to catch. -/
theorem c4_serialize_failure_modes (e1 e2 e3 : String) (id : Nat) (env : Env)
    (view : Except String RValue) (rm : Option String) (h : RValue) (c : Bool) :
    (csfSerialize ⟨true, none, some e1, some e2, view, rm⟩ (RPayload.handle id) env).1
      = "[Serialization error: " ++ e2 ++ "]" ∧
    (serializerSerialize ⟨none, Except.error e3, c⟩ h env).1
      = Except.error ("Serialization failed: " ++ cleanErrorMessage e3) := by
  exact ⟨rfl, rfl⟩

/-- C8 counterexample: a print capture returning the two lines `"a"` and
`"b"` makes the composable serialize function return `"a\x5cnb"` — the
lines joined by a literal backslash and `n` — which differs from the
lines joined by the line-feed character. -/
theorem c8_counterexample :
    (csfSerialize ⟨true, none, none, none, Except.ok (RValue.strs ["a", "b"]), none⟩
        (RPayload.handle 0) []).1 = "a\\nb" ∧
    (csfSerialize ⟨true, none, none, none, Except.ok (RValue.strs ["a", "b"]), none⟩
        (RPayload.handle 0) []).1 ≠ "a\nb" := by
  exact ⟨rfl, by decide⟩

/-- C8 (amended): `Serializer.serialize` (via `toCharacterVector`) joins
the captured lines with the line-feed character, except that an empty
joined text falls back to the placeholder; the composable
`createSerializeFunction` joins the captured lines with the
two-character sequence backslash-`n` instead of a line feed. -/
theorem c8_join_separators (vs : List String) (v : String) (rest : List String)
    (h : RValue) (env : Env) (c : Bool) (id : Nat) :
    (serializerSerialize ⟨none, Except.ok (some (RValue.strs vs)), c⟩ h env).1
      = Except.ok (if String.intercalate "\n" vs = "" then "[Object could not be serialized]"
                   else String.intercalate "\n" vs) ∧
    (csfSerialize ⟨true, none, none, none, Except.ok (RValue.strs (v :: rest)), none⟩
        (RPayload.handle id) env).1
      = String.intercalate "\\n" (v :: rest) := by
  constructor
  · rfl
  · simp [csfSerialize]

/-- Display categories of the produced messages (`WebRMessage['type']` /
`ProcessedOutput['type']`). -/
inductive MsgType where
  | stdout | stderr | info | warning | error | success | plot
deriving DecidableEq, Repr

/-- One captured WebR output item (`WebROutput`): its raw stream or
condition kind and its payload. -/
structure OutputItem where
  ty : String
  data : RPayload

/-- One processed output of the `OutputProcessor`. -/
structure ProcessedOutput where
  type : MsgType
  content : String
deriving DecidableEq, Repr

/-- One message delivered to the consumer (`WebRMessage`). -/
structure WebRMessage where
  type : MsgType
  content : String
deriving DecidableEq, Repr

/-- `OutputProcessor.mapOutputType`: the fixed raw-kind-to-category
mapping with `info` as the default for unrecognized kinds. -/
def mapOutputType (webrType : String) : MsgType :=
  if webrType = "stdout" then MsgType.stdout
  else if webrType = "stderr" then MsgType.stderr
  else if webrType = "message" then MsgType.info
  else if webrType = "warning" then MsgType.warning
  else if webrType = "error" then MsgType.error
  else MsgType.info

/-- `WEBR_TYPE_MAP` lookup in `createExecuteCodeFunction` (with the
`info` default for kinds outside the map): the same fixed mapping. -/
def webrTypeMap (webrType : String) : MsgType :=
  if webrType = "stdout" then MsgType.stdout
  else if webrType = "stderr" then MsgType.stderr
  else if webrType = "message" then MsgType.info
  else if webrType = "warning" then MsgType.warning
  else if webrType = "error" then MsgType.error
  else MsgType.info

/-- The timestamp-derived temporary name used by
`OutputProcessor.extractConditionMessage` (`.__condition_<Date.now()>__`). -/
def condTempName (ts : Nat) : String := ".__condition_" ++ toString ts ++ "__"

/-- Interpreter outcomes for one `extractConditionMessage` call: the
`Date.now()` timestamp for the temporary name, whether the `bind`
throws, the outcome of the class-branch eval, whether the `rm` eval
throws, the `toJs` view of the extracted message (`none` when `toJs`
threw), and the oracle of the fallback `Serializer.serialize` call made
in the catch block. -/
structure CondOracle where
  ts : Nat
  bindThrows : Option String
  branchEval : Except String Unit
  rmThrows : Option String
  msgView : Option RValue
  fallback : SerOracle

/-- `OutputProcessor.extractConditionMessage`: bind the condition object
to `.__condition_<ts>__`, run the class-branch eval (whose snippet also
assigns a global `obj`), run `rm`, and convert the extracted message;
any throw lands in the catch, which falls back to
`Serializer.serialize` — on those paths the `rm` never ran, so the
temporary stays bound.  The fallback itself may throw (it is
`withErrorHandling`-wrapped), hence the `Except` result. -/
def extractConditionMessage (o : CondOracle) (handle : RValue) (env : Env) :
    Except String String × Env :=
  match o.bindThrows with
  | some _ => serializerSerialize o.fallback handle env
  | none =>
    let env1 := envBind env (condTempName o.ts) handle
    match o.branchEval with
    | Except.error _ => serializerSerialize o.fallback handle env1
    | Except.ok _ =>
      let env2 := envBind env1 "obj" handle
      match o.rmThrows with
      | some _ => serializerSerialize o.fallback handle env2
      | none =>
        let env3 := envRemove env2 (condTempName o.ts)
        (Except.ok (jsOrElse (toCharacterVector o.msgView) "[Unable to extract condition message]"),
         env3)

/-- Interpreter outcomes for processing one captured output item through
the `OutputProcessor`: the `toJs` view used by the direct
`toCharacterVector` attempt, the condition-extraction oracle, and the
oracle of the direct `Serializer.serialize` fallback. -/
structure OPItemOracle where
  toJsView : Option RValue
  cond : CondOracle
  ser : SerOracle

/-- `OutputProcessor.extractContent`: strings pass through, an absent
payload gives the empty string; otherwise try the direct character
vector conversion, then (for the three diagnostic kinds) the
condition-specific extraction, then generic serialization; any escaping
throw is caught and degraded to `"[Unable to display output]"`. -/
def opExtractContent (o : OPItemOracle) (item : OutputItem) (env : Env) : String × Env :=
  match item.data with
  | RPayload.str s => (s, env)
  | RPayload.absent => ("", env)
  | RPayload.handle id =>
    match toCharacterVector o.toJsView with
    | some s => (s, env)
    | none =>
      if item.ty = "message" || item.ty = "warning" || item.ty = "error" then
        match extractConditionMessage o.cond (RValue.obj id) env with
        | (Except.ok s, env1) => (s, env1)
        | (Except.error _, env1) => ("[Unable to display output]", env1)
      else
        match serializerSerialize o.ser (RValue.obj id) env with
        | (Except.ok s, env1) => (s, env1)
        | (Except.error _, env1) => ("[Unable to display output]", env1)

/-- `OutputProcessor.process`: extract the content and classify the raw
kind. -/
def opProcess (o : OPItemOracle) (item : OutputItem) (env : Env) : ProcessedOutput × Env :=
  let (content, env1) := opExtractContent o item env
  (⟨mapOutputType item.ty, content⟩, env1)

/-- `OutputProcessor.processMultiple`: process each captured item in
original order (round trips to the single interpreter session are
serialized). -/
def processAll (items : List (OutputItem × OPItemOracle)) (env : Env) :
    List ProcessedOutput × Env :=
  items.foldl
    (fun acc it =>
      let (p, env1) := opProcess it.2 it.1 acc.2
      (acc.1 ++ [p], env1))
    ([], env)

/-- Interpreter outcomes for one `isPlotObject` call: whether the `bind`
throws, the outcome of the `inherits(...)` eval, whether the `rm` eval
throws, and the `toJs` view of the eval result (`none` when `toJs`
threw). -/
structure IpoOracle where
  bindThrows : Option String
  inheritsEval : Except String Unit
  rmThrows : Option String
  view : Option RValue

/-- `OutputProcessor.isPlotObject`: bind `.__check_plot__`, ask the
interpreter `inherits(x, c("gg", "ggplot", "recordedplot", "trellis",
"grob"))`, remove the binding, and read the first logical value; any
failure is caught and treated as `false`. -/
def isPlotObject (o : IpoOracle) (handle : RValue) (env : Env) : Bool × Env :=
  match o.bindThrows with
  | some _ => (false, env)
  | none =>
    let env1 := envBind env ".__check_plot__" handle
    match o.inheritsEval with
    | Except.error _ => (false, env1)
    | Except.ok _ =>
      match o.rmThrows with
      | some _ => (false, env1)
      | none =>
        let env2 := envRemove env1 ".__check_plot__"
        match o.view with
        | some (RValue.bools (b :: _)) => (b, env2)
        | _ => (false, env2)

/-- Interpreter outcomes for one `processResult` call: the
`result.type()` outcome, the plot-check oracle and the serialization
oracle. -/
structure PrOracle where
  rtype : Except String String
  plot : IpoOracle
  ser : SerOracle

/-- `OutputProcessor.processResult` — the Result Value Policy: skip an
absent result, a `null` result, the non-printable types, and recognized
plot objects; otherwise serialize and emit a `stdout` processed output
only when the text is non-blank; any failure is caught and skips the
result. -/
def processResult (o : PrOracle) (result : Option RValue) (env : Env) :
    Option ProcessedOutput × Env :=
  match result with
  | none => (none, env)
  | some r =>
    match o.rtype with
    | Except.error _ => (none, env)
    | Except.ok t =>
      if t = "null" then (none, env)
      else if t = "closure" || t = "builtin" || t = "special" then (none, env)
      else
        let (isPlot, env1) := isPlotObject o.plot r env
        if isPlot then (none, env1)
        else
          match serializerSerialize o.ser r env1 with
          | (Except.error _, env2) => (none, env2)
          | (Except.ok content, env2) =>
            if content != "" && jsTrim content != "" then
              (some ⟨MsgType.stdout, content⟩, env2)
            else (none, env2)

/-- `imageToDataUrl` from `utils/validators.ts`: convert one captured
bitmap to a data URL, throwing when no canvas context is available; the
oracle supplies either the URL or the unavailability. -/
def imageToDataUrl (img : Option String) : Except String String :=
  match img with
  | none => Except.error "Canvas context unavailable"
  | some url => Except.ok url

/-- `(result.images || []).map(imageToDataUrl)`: left-to-right, the
first throwing conversion aborts the whole mapping. -/
def convertImages : List (Option String) → Except String (List String)
  | [] => Except.ok []
  | img :: rest =>
    match imageToDataUrl img with
    | Except.error e => Except.error e
    | Except.ok u =>
      match convertImages rest with
      | Except.error e => Except.error e
      | Except.ok us => Except.ok (u :: us)

/-- The outcome object of `Executor.execute` (`ExecutionResult` from
`core/types`, shaped by its construction sites; the wall-clock
`duration` field is outside this model). -/
structure ExecutionResult where
  outputs : List ProcessedOutput
  plots : List String
  success : Bool
deriving DecidableEq, Repr

/-- The payload of a successful `shelter.captureR` call: the captured
signals (each paired with the oracle of its later processing), the
captured images, and the optional final value. -/
structure CaptureModel where
  output : List (OutputItem × OPItemOracle)
  images : List (Option String)
  result : Option RValue

/-- Interpreter outcomes for one `Executor.execute` call: whether the
`options(...)` eval throws, the capture outcome, and the oracle for the
final-value processing. -/
structure ExecutorOracle where
  optionsThrows : Option String
  capture : Except String CaptureModel
  pr : PrOracle

/-- `Executor.execute` from the webr runtime module: set options, run
the single capture call, drain the captured signals in order, convert
the images, process the final value (pushing its processed output onto
the same `outputs` list), and catch any throw into an outcome with a
single `error` output, no plots and `success := false`.  The function
is total: it always returns an `ExecutionResult`, never a thrown
error. -/
def executorExecute (o : ExecutorOracle) (env : Env) : ExecutionResult × Env :=
  match o.optionsThrows with
  | some e => (⟨[⟨MsgType.error, cleanErrorMessage e⟩], [], false⟩, env)
  | none =>
    match o.capture with
    | Except.error e => (⟨[⟨MsgType.error, cleanErrorMessage e⟩], [], false⟩, env)
    | Except.ok cap =>
      let (outputs, env1) := processAll cap.output env
      match convertImages cap.images with
      | Except.error e => (⟨[⟨MsgType.error, cleanErrorMessage e⟩], [], false⟩, env1)
      | Except.ok plots =>
        let (ro, env2) := processResult o.pr cap.result env1
        match ro with
        | some p => (⟨outputs ++ [p], plots, true⟩, env2)
        | none => (⟨outputs, plots, true⟩, env2)

/-- `executeCode` of the module-based `useWebR` composable: append the
outcome's outputs as messages, then its plots as `plot` messages. -/
def useWebRExecuteMessages (r : ExecutionResult) : List WebRMessage :=
  r.outputs.map (fun p => ⟨p.type, p.content⟩) ++ r.plots.map (fun url => ⟨MsgType.plot, url⟩)

theorem convertImages_map_some (urls : List String) :
    convertImages (urls.map some) = Except.ok urls := by
  induction urls with
  | nil => rfl
  | cons u us ih => simp [convertImages, imageToDataUrl, ih]

/-- C5: for every thrown capture error, `Executor.execute` returns (it
never throws — the model is a total function into `ExecutionResult`)
an outcome with `success = false`, exactly one output of category
`error` holding the cleaned error text, and no plot messages; the
workspace is untouched by this path. -/
theorem c5_execute_error_outcome (e : String) (pr : PrOracle) (env : Env) :
    executorExecute ⟨none, Except.error e, pr⟩ env
      = (⟨[⟨MsgType.error, cleanErrorMessage e⟩], [], false⟩, env) := by
  rfl

/-- The plot-check oracle of a final value the interpreter recognizes as
a plot object: the `inherits` test runs cleanly and returns `TRUE`. -/
def plotTrueOracle : IpoOracle := ⟨none, Except.ok (), none, some (RValue.bools [true])⟩

/-- C9: a final value whose `inherits` plot-class test returns `TRUE` is
never turned into a `stdout` processed output by the Result Value
Policy, whatever its type tag and however its serialization would have
printed; accordingly `Executor.execute` appends no final-value output
for it. -/
theorem c9_plot_suppression (rt : Except String String) (ser : SerOracle)
    (r : RValue) (env : Env) (items : List (OutputItem × OPItemOracle))
    (urls : List String) :
    (processResult ⟨rt, plotTrueOracle, ser⟩ (some r) env).1 = none ∧
    (executorExecute ⟨none, Except.ok ⟨items, urls.map some, some r⟩,
        ⟨rt, plotTrueOracle, ser⟩⟩ env).1.outputs = (processAll items env).1 := by
  have hpr : ∀ env1 : Env, (processResult ⟨rt, plotTrueOracle, ser⟩ (some r) env1).1 = none := by
    intro env1
    cases rt with
    | error e => rfl
    | ok t =>
      simp only [processResult, isPlotObject, plotTrueOracle]
      split_ifs <;> rfl
  refine ⟨hpr env, ?_⟩
  simp only [executorExecute, convertImages_map_some]
  have h2 := hpr (processAll items env).2
  cases hro : (processResult ⟨rt, plotTrueOracle, ser⟩ (some r) (processAll items env).2) with
  | mk ro env2 =>
    have hron : ro = none := by
      rw [hro] at h2
      exact h2
    subst hron
    rfl

/-- The processing oracle of a displayable final value: type `"double"`,
the plot check returns `FALSE`, and serialization prints `"[1] 2"`. -/
def prDisplayOracle : PrOracle :=
  ⟨Except.ok "double", ⟨none, Except.ok (), none, some (RValue.bools [false])⟩,
   ⟨none, Except.ok (some (RValue.strs ["[1] 2"])), true⟩⟩

/-- C6 counterexample: an evaluation through `Executor.execute` and the
module-based `useWebR.executeCode` that captures no signals, one image
and a displayable final value delivers the final-value `stdout` message
BEFORE the `plot` message — the final-value processed output is pushed
onto `outputs`, and the consumer appends all outputs before any plots —
contradicting the claimed signals-plots-final order. -/
theorem c6_counterexample :
    useWebRExecuteMessages
        (executorExecute ⟨none, Except.ok ⟨[], [some "imgurl"], some (RValue.obj 0)⟩,
          prDisplayOracle⟩ []).1
      = [⟨MsgType.stdout, "[1] 2"⟩, ⟨MsgType.plot, "imgurl"⟩] ∧
    useWebRExecuteMessages
        (executorExecute ⟨none, Except.ok ⟨[], [some "imgurl"], some (RValue.obj 0)⟩,
          prDisplayOracle⟩ []).1
      ≠ [⟨MsgType.plot, "imgurl"⟩, ⟨MsgType.stdout, "[1] 2"⟩] := by
  constructor
  · decide
  · decide

/-- `cleanupErrorHandlingVariables`: one eval removing
`.webr_complete_error` and `.webr_collected_warnings` when they exist;
a throw is swallowed and removes nothing (`ok` records whether the eval
succeeded). -/
def cleanupErrorHandlingVariables (ok : Bool) (env : Env) : Env :=
  if ok then envRemove (envRemove env completeErrorName) warningsName else env

/-- The retrieval eval of `extractEnhancedErrorMessage`: returns the
stored `.webr_complete_error` when bound, the empty string `""`
otherwise; `none` models the retrieval `evalR`/`toJs` throwing. -/
def retrieveCompleteError (ok : Bool) (env : Env) : Option RValue :=
  if ok then some ((envLookup env completeErrorName).getD (RValue.strs [""])) else none

/-- Interpreter outcomes for extracting one output item in the
composable pipeline (`createExtractContentFunction`): the `proxy.toJs`
view (`Except.error` when it threw) and the oracle of the serialize
fallback. -/
structure CsfExtractOracle where
  toJsView : Except String RValue
  csf : CsfOracle

/-- The list scan of `createExtractContentFunction`: the first item that
is a character object with at least one value. -/
def firstCharWithValues : List RValue → Option (List String)
  | [] => none
  | RValue.strs vs :: rest =>
      if vs.length > 0 then some vs else firstCharWithValues rest
  | _ :: rest => firstCharWithValues rest

/-- `createExtractContentFunction` from `useWebRSerializaton.ts`:
strings pass through; otherwise take the `toJs` view (a throw falls back
to the serialize function), join a character object's values with the
literal backslash-`n` (`join('\\n')` in the source), scan a list object
for its first non-empty character item, and serialize anything else.
An absent payload is routed to the serialize fallback (its `toJs` would
throw). -/
def csfExtractContent (o : CsfExtractOracle) (item : OutputItem) (env : Env) : String × Env :=
  match item.data with
  | RPayload.str s => (s, env)
  | RPayload.absent => csfSerialize o.csf RPayload.absent env
  | RPayload.handle id =>
    match o.toJsView with
    | Except.error _ => csfSerialize o.csf (RPayload.handle id) env
    | Except.ok js =>
      match js with
      | RValue.strs vs => (String.intercalate "\\n" vs, env)
      | RValue.listv its =>
        match firstCharWithValues its with
        | some vs => (String.intercalate "\\n" vs, env)
        | none => csfSerialize o.csf (RPayload.handle id) env
      | _ => csfSerialize o.csf (RPayload.handle id) env

/-- The signal loop of `createExecuteCodeFunction`: one message per
captured output, in capture order, typed through the `WEBR_TYPE_MAP`
lookup. -/
def composableSignals (items : List (OutputItem × CsfExtractOracle)) (env : Env) :
    List WebRMessage × Env :=
  items.foldl
    (fun acc it =>
      let (content, env1) := csfExtractContent it.2 it.1 acc.2
      (acc.1 ++ [⟨webrTypeMap it.1.ty, content⟩], env1))
    ([], env)

/-- The graphics loop of `createExecuteCodeFunction`: one `plot` message
per captured image whose canvas context is available, in capture
order. -/
def composablePlots (images : List (Option String)) : List WebRMessage :=
  images.foldl
    (fun acc img =>
      match img with
      | some url => acc ++ [⟨MsgType.plot, url⟩]
      | none => acc)
    []

/-- Interpreter outcomes for one `createExecuteCodeFunction` call:
readiness, whether the `options(...)` eval throws, the wrapped user
evaluation, the `String(error)` text of a thrown capture error, whether
the enhanced-message retrieval eval succeeds, whether the cleanup eval
succeeds, the captured signals with their extraction oracles, the
captured images, and the final-value checks (`result.result.type()`,
the `.Last.value` check snippet's verdict view, and the display print's
view). -/
structure ComposableOracle where
  ready : Bool
  optionsThrows : Option String
  user : UserEval
  caughtText : String
  retrievalOk : Bool
  cleanupOk : Bool
  outputs : List (OutputItem × CsfExtractOracle)
  images : List (Option String)
  result : Option RValue
  resultType : Except String String
  checkEval : Except String (Option RValue)
  displayEval : Except String (Option RValue)

/-- The final-value step of `createExecuteCodeFunction`: when a
non-`null` result is present, run the `.Last.value` check snippet and,
when its verdict is `"display"`, print `.Last.value` and emit one
`stdout` message joining the lines with the literal backslash-`n`
(`join('\\n')` in the source); every failure in this step is caught by
the inner catch and silently skips the message.  The snippet's global
assignments to `val`/`output` are not tracked (no claim concerns
them). -/
def composableFinal (o : ComposableOracle) : List WebRMessage :=
  match o.result with
  | none => []
  | some _ =>
    match o.resultType with
    | Except.error _ => []
    | Except.ok t =>
      if t = "null" then []
      else
        match o.checkEval with
        | Except.error _ => []
        | Except.ok viewOpt =>
          let shouldDisplay :=
            match viewOpt with
            | some (RValue.strs (v :: _)) => v == "display"
            | _ => false
          if shouldDisplay then
            match o.displayEval with
            | Except.error _ => []
            | Except.ok dviewOpt =>
              match dviewOpt with
              | some (RValue.strs vs) =>
                  if vs.length > 0 then [⟨MsgType.stdout, String.intercalate "\\n" vs⟩]
                  else []
              | _ => []
          else []

/-- The catch block of `createExecuteCodeFunction`: compute the cleaned
and possibly enhanced error text (reading `.webr_complete_error` from
the workspace as left by the wrapper), then run the cleanup eval, and
emit exactly one `error` message. -/
def composableCatch (o : ComposableOracle) (env : Env) : List WebRMessage × Env :=
  let msg := composableCatchMessage o.caughtText (retrieveCompleteError o.retrievalOk env)
  ([⟨MsgType.error, msg⟩], cleanupErrorHandlingVariables o.cleanupOk env)

/-- `createExecuteCodeFunction` from `useWebRSerializaton.ts`: refuse
when not ready; otherwise set options, evaluate the wrapped user code
through the capture call, and on success emit the signal messages, then
the plot messages, then the optional final-value message; any throw of
the options eval or of the capture call lands in the catch block.  The
cleanup of the reserved globals happens only there — the success path
never removes them. -/
def composableExecuteCode (o : ComposableOracle) (env : Env) : List WebRMessage × Env :=
  if !o.ready then
    ([⟨MsgType.error, "WebR is not ready. Please wait for initialization."⟩], env)
  else
    match o.optionsThrows with
    | some _ => composableCatch o env
    | none =>
      match runWrappedCode o.user env with
      | (Except.error _, env1) => composableCatch o env1
      | (Except.ok _, env1) =>
        let sigStep := composableSignals o.outputs env1
        (sigStep.1 ++ composablePlots o.images ++ composableFinal o, sigStep.2)

/-- A successful composable evaluation that raised one warning and
captured nothing else. -/
def c3SuccessOracle : ComposableOracle :=
  { ready := true, optionsThrows := none, user := ⟨["w1"], Except.ok ()⟩,
    caughtText := "", retrievalOk := true, cleanupOk := true,
    outputs := [], images := [], result := none,
    resultType := Except.ok "null", checkEval := Except.ok none,
    displayEval := Except.ok none }

/-- C3 counterexample: after a successful evaluation the reserved
accumulator `.webr_collected_warnings` is still bound in the workspace —
`cleanupErrorHandlingVariables` is called by the catch block only, so
nothing removes it on the success path. -/
theorem c3_counterexample :
    envHas (composableExecuteCode c3SuccessOracle []).2 ".webr_collected_warnings" = true := by
  decide

/-- C3 (amended): the reserved globals are removed only on the error
path — when the capture call throws and the cleanup eval succeeds, the
final workspace holds neither `.webr_collected_warnings` nor
`.webr_complete_error`; after a successful evaluation the accumulator
`.webr_collected_warnings` remains bound. -/
theorem c3_cleanup_only_on_error (env : Env) (ws : List String) (e caught : String)
    (ro : Bool) :
    (envHas (composableExecuteCode
        { ready := true, optionsThrows := none, user := ⟨ws, Except.error e⟩,
          caughtText := caught, retrievalOk := ro, cleanupOk := true,
          outputs := [], images := [], result := none,
          resultType := Except.ok "null", checkEval := Except.ok none,
          displayEval := Except.ok none } env).2 warningsName = false) ∧
    (envHas (composableExecuteCode
        { ready := true, optionsThrows := none, user := ⟨ws, Except.error e⟩,
          caughtText := caught, retrievalOk := ro, cleanupOk := true,
          outputs := [], images := [], result := none,
          resultType := Except.ok "null", checkEval := Except.ok none,
          displayEval := Except.ok none } env).2 completeErrorName = false) ∧
    (envHas (composableExecuteCode
        { ready := true, optionsThrows := none, user := ⟨ws, Except.ok ()⟩,
          caughtText := caught, retrievalOk := ro, cleanupOk := true,
          outputs := [], images := [], result := none,
          resultType := Except.ok "null", checkEval := Except.ok none,
          displayEval := Except.ok none } env).2 warningsName = true) := by
  have hne : warningsName ≠ completeErrorName := by decide
  refine ⟨?_, ?_, ?_⟩
  · show envHas (cleanupErrorHandlingVariables true
        (runWrappedCode ⟨ws, Except.error e⟩ env).2) warningsName = false
    simp only [cleanupErrorHandlingVariables, if_true]
    exact envHas_envRemove_self _ _
  · show envHas (cleanupErrorHandlingVariables true
        (runWrappedCode ⟨ws, Except.error e⟩ env).2) completeErrorName = false
    simp only [cleanupErrorHandlingVariables, if_true]
    rw [envHas_envRemove_ne _ _ _ hne]
    exact envHas_envRemove_self _ _
  · show envHas (runWrappedCode ⟨ws, Except.ok ()⟩ env).2 warningsName = true
    simp [runWrappedCode, envBind, envHas]

/-- C6 (amended): in the composable pipeline a successful evaluation
delivers the signal messages in capture order, then the plot messages in
capture order, then the optional final-value message last; in the
Executor/useWebR pipeline the final-value processed output is pushed
onto the outputs list and the consumer appends all outputs before any
plots, so there the final-value message is delivered BEFORE the plot
messages. -/
theorem c6_message_order
    (items : List (OutputItem × OPItemOracle)) (urls : List String)
    (res : Option RValue) (pr : PrOracle) (env : Env)
    (ws : List String) (caught : String) (ro co : Bool)
    (outs : List (OutputItem × CsfExtractOracle)) (imgs : List (Option String))
    (res2 : Option RValue) (rt : Except String String)
    (ce de : Except String (Option RValue)) :
    (useWebRExecuteMessages
        (executorExecute ⟨none, Except.ok ⟨items, urls.map some, res⟩, pr⟩ env).1
      = (processAll items env).1.map (fun p => ⟨p.type, p.content⟩)
        ++ ((processResult pr res (processAll items env).2).1.toList.map
              (fun p => (⟨p.type, p.content⟩ : WebRMessage)))
        ++ urls.map (fun u => ⟨MsgType.plot, u⟩)) ∧
    (composableExecuteCode
        { ready := true, optionsThrows := none, user := ⟨ws, Except.ok ()⟩,
          caughtText := caught, retrievalOk := ro, cleanupOk := co,
          outputs := outs, images := imgs, result := res2,
          resultType := rt, checkEval := ce, displayEval := de } env
      = ((composableSignals outs (runWrappedCode ⟨ws, Except.ok ()⟩ env).2).1
          ++ composablePlots imgs
          ++ composableFinal
               { ready := true, optionsThrows := none, user := ⟨ws, Except.ok ()⟩,
                 caughtText := caught, retrievalOk := ro, cleanupOk := co,
                 outputs := outs, images := imgs, result := res2,
                 resultType := rt, checkEval := ce, displayEval := de },
         (composableSignals outs (runWrappedCode ⟨ws, Except.ok ()⟩ env).2).2)) := by
  constructor
  · simp only [executorExecute, convertImages_map_some]
    rcases hpp : processResult pr res (processAll items env).2 with ⟨fo, env2⟩
    cases fo with
    | none => simp [useWebRExecuteMessages]
    | some p => simp [useWebRExecuteMessages, List.map_append, List.append_assoc]
  · rfl
